import Mathlib

/-!
Verification of the `openvqe/hamiltonian/hamiltonian_base.py` module:
a shallow embedding of `ParametersHamiltonian` and `HamiltonianBase`
together with proofs of the specified properties.

Modelling conventions:
* Python exceptions become constructors of `PyError`; a method that can
  raise returns `Except PyError α`.
* The external `openfermion` library is opaque to this module: its three
  functions used here are fields of the record `Openfermion`.
* A concrete subclass instance of `HamiltonianBase` is a record holding the
  configuration, the (possibly overridden) `get_fermionic_hamiltonian`,
  `n_qubits` and `_verify` behaviours, and the attribute table consulted by
  `getattr`.
* `__call__` is embedded as `HamiltonianBase.call`, which returns the result,
  the trace of the observable steps taken (for ordering properties), and the
  post-call instance state (for mutation properties).
-/

deriving instance DecidableEq for Except

/-- The Python exception values raised by the module, by exception class. -/
inductive PyError where
  | OpenVQEException (msg : String)
  | NotImplementedError (msg : String)
  | OpenVQEParameterError (parameter_name : String) (parameter_class : String)
      (parameter_value : String) (called_from : String)
  | ValidationError (msg : String)
  deriving DecidableEq, Repr

/-- The Python exception class of an error value. -/
inductive ErrKind where
  | openVQEException
  | notImplementedError
  | openVQEParameterError
  | validationError
  deriving DecidableEq, Repr

/-- Map an error value to its exception class. -/
def PyError.kind : PyError → ErrKind
  | .OpenVQEException _ => .openVQEException
  | .NotImplementedError _ => .notImplementedError
  | .OpenVQEParameterError _ _ _ _ => .openVQEParameterError
  | .ValidationError _ => .validationError

/-- Python `str.upper()`, modelled character-wise (faithful for the ASCII
strings this module handles). -/
def String.upper (s : String) : String := ⟨s.data.map Char.toUpper⟩

/-- `ParametersHamiltonian`: the configuration dataclass, one field
`transformation` defaulting to `"JW"`. -/
structure ParametersHamiltonian where
  transformation : String := "JW"
  deriving DecidableEq, Repr

/-- `ParametersHamiltonian.jordan_wigner`: true iff the uppercased
transformation name is one of the Jordan-Wigner aliases. -/
def ParametersHamiltonian.jordan_wigner (self : ParametersHamiltonian) : Bool :=
  if self.transformation.upper ∈ ["JW", "J-W", "JORDAN-WIGNER"] then
    true
  else
    false

/-- `ParametersHamiltonian.bravyi_kitaev`: true iff the uppercased
transformation name is one of the Bravyi-Kitaev aliases. -/
def ParametersHamiltonian.bravyi_kitaev (self : ParametersHamiltonian) : Bool :=
  if self.transformation.upper ∈ ["BK", "B-K", "BRAVYI-KITAEV"] then
    true
  else
    false

/-- The part of the external `openfermion` library used by the module:
conversion to the fermion-operator representation and the two built-in
fermion-to-qubit transforms.  `FH` is the type of fermionic Hamiltonians,
`FermOp` the fermion-operator representation, `QubitOp` the qubit operators. -/
structure Openfermion (FH FermOp QubitOp : Type) where
  get_fermion_operator : FH → FermOp
  jordan_wigner : FermOp → QubitOp
  bravyi_kitaev : FermOp → QubitOp

/-- A Python attribute found by `getattr`: either a callable method taking
the fermionic Hamiltonian, or a non-callable attribute. -/
inductive Attr (FH QubitOp : Type) where
  | method (f : FH → QubitOp)
  | nonCallable

/-- An instance of (a subclass of) `HamiltonianBase`: its configuration and
the behaviour of the methods a subclass may override.  `_verify` is the
internal consistency check delegated to by `verify` (defined in the `abc`
module, absent from the sources: modelled from the spec as returning true
when sane and raising a validation error when inconsistent).
`get_fermionic_hamiltonian` and `n_qubits` are the subclass overrides; the
unmodified base class uses `get_fermionic_hamiltonian_base` and
`n_qubits_base` below.  `attrs` is the attribute table consulted by
`getattr(self, name, None)`.  `class_name` plays the role of
`type(self).__name__` and `parameters_class_name` of
`type(self.parameters).__name__`. -/
structure HamiltonianBase (FH QubitOp : Type) where
  parameters : ParametersHamiltonian
  parameters_class_name : String := "ParametersHamiltonian"
  class_name : String := "HamiltonianBase"
  _verify : Except PyError Bool
  get_fermionic_hamiltonian : Except PyError FH
  n_qubits : Except PyError Nat
  attrs : String → Option (Attr FH QubitOp)

/-- The base-class body of `n_qubits`: raises an `OpenVQEException` telling
the caller to overwrite the function. -/
def HamiltonianBase.n_qubits_base (class_name : String) : Except PyError Nat :=
  Except.error (PyError.OpenVQEException (class_name ++
    ": forgot to overwrite n_qubits() function or you are calling the BaseClass which you shall not do"))

/-- The base-class body of `get_fermionic_hamiltonian`: raises a
`NotImplementedError`. -/
def HamiltonianBase.get_fermionic_hamiltonian_base {FH : Type} : Except PyError FH :=
  Except.error (PyError.NotImplementedError
    "You try to call get_hamiltonian from the HamiltonianBase class. This function needs to be overwritten by subclasses")

/-- The unmodified base abstraction: no subclass override of any method,
no extra attributes. -/
def HamiltonianBase.base (FH QubitOp : Type) : HamiltonianBase FH QubitOp where
  parameters := {}
  _verify := Except.ok true
  get_fermionic_hamiltonian := HamiltonianBase.get_fermionic_hamiltonian_base
  n_qubits := HamiltonianBase.n_qubits_base "HamiltonianBase"
  attrs := fun _ => none

/-- `HamiltonianBase.verify`: returns the result of the internal `_verify`
check (propagating its exception, if any). -/
def HamiltonianBase.verify {FH QubitOp : Type} (self : HamiltonianBase FH QubitOp) :
    Except PyError Bool :=
  self._verify

/-- The observable steps taken during one `__call__` invocation, in order:
the `self.verify()` call, the evaluation of the transformation-name
dispatch, the `self.get_fermionic_hamiltonian()` call, and the transform
actually applied. -/
inductive Event where
  | verifyCall
  | dispatchCheck
  | getFermionicCall
  | jwTransform
  | bkTransform
  | customCall
  deriving DecidableEq, Repr

/-- Everything one `__call__` invocation produces: the returned value or
raised exception, the ordered trace of observable steps, and the instance
state after the call. -/
structure CallResult (FH QubitOp : Type) where
  result : Except PyError QubitOp
  events : List Event
  post : HamiltonianBase FH QubitOp

/-- `HamiltonianBase.__call__`: verify, then dispatch on the configured
transformation name; the two built-in branches convert the fermionic
Hamiltonian with `get_fermion_operator` and apply the library transform;
otherwise `getattr` looks up a method of the given name and, when it is
callable, that method is applied to the fermionic Hamiltonian; when it is
not, an `OpenVQEParameterError` is raised.  The Python body assigns no
attribute, so the post state is the input state in every branch. -/
def HamiltonianBase.call {FH FermOp QubitOp : Type}
    (of : Openfermion FH FermOp QubitOp) (self : HamiltonianBase FH QubitOp) :
    CallResult FH QubitOp :=
  match self.verify with
  | Except.error e => ⟨Except.error e, [Event.verifyCall], self⟩
  | Except.ok _ =>
    if self.parameters.jordan_wigner then
      match self.get_fermionic_hamiltonian with
      | Except.error e =>
        ⟨Except.error e, [Event.verifyCall, Event.dispatchCheck, Event.getFermionicCall], self⟩
      | Except.ok h =>
        ⟨Except.ok (of.jordan_wigner (of.get_fermion_operator h)),
         [Event.verifyCall, Event.dispatchCheck, Event.getFermionicCall, Event.jwTransform], self⟩
    else if self.parameters.bravyi_kitaev then
      match self.get_fermionic_hamiltonian with
      | Except.error e =>
        ⟨Except.error e, [Event.verifyCall, Event.dispatchCheck, Event.getFermionicCall], self⟩
      | Except.ok h =>
        ⟨Except.ok (of.bravyi_kitaev (of.get_fermion_operator h)),
         [Event.verifyCall, Event.dispatchCheck, Event.getFermionicCall, Event.bkTransform], self⟩
    else
      match self.attrs self.parameters.transformation with
      | some (Attr.method f) =>
        match self.get_fermionic_hamiltonian with
        | Except.error e =>
          ⟨Except.error e, [Event.verifyCall, Event.dispatchCheck, Event.getFermionicCall], self⟩
        | Except.ok h =>
          ⟨Except.ok (f h),
           [Event.verifyCall, Event.dispatchCheck, Event.getFermionicCall, Event.customCall], self⟩
      | _ =>
        ⟨Except.error (PyError.OpenVQEParameterError "transformation"
            self.parameters_class_name self.parameters.transformation
            (self.class_name ++ ".__call__()")),
         [Event.verifyCall, Event.dispatchCheck], self⟩

/-! Concrete example instances used by the witnesses and counterexamples. -/

/-- A concrete stand-in for the external library, over natural numbers, whose
three functions are pairwise distinguishable. -/
def natOF : Openfermion Nat Nat Nat where
  get_fermion_operator := fun h => h + 1
  jordan_wigner := fun m => 2 * m
  bravyi_kitaev := fun m => 3 * m

/-- A concrete subclass instance: verification passes, the fermionic
Hamiltonian is `5`, the attribute table is `attrs`. -/
def mkNatInst (t : String) (attrs : String → Option (Attr Nat Nat)) :
    HamiltonianBase Nat Nat where
  parameters := ⟨t⟩
  _verify := Except.ok true
  get_fermionic_hamiltonian := Except.ok 5
  n_qubits := Except.ok 4
  attrs := attrs

/-! Helper lemmas shared by the claim theorems. -/

/-- The Jordan-Wigner predicate unfolded to the membership test from the
source. -/
theorem ParametersHamiltonian.jordan_wigner_iff (p : ParametersHamiltonian) :
    p.jordan_wigner = true ↔ p.transformation.upper ∈ ["JW", "J-W", "JORDAN-WIGNER"] := by
  unfold ParametersHamiltonian.jordan_wigner
  split <;> simp_all

/-- The Bravyi-Kitaev predicate unfolded to the membership test from the
source. -/
theorem ParametersHamiltonian.bravyi_kitaev_iff (p : ParametersHamiltonian) :
    p.bravyi_kitaev = true ↔ p.transformation.upper ∈ ["BK", "B-K", "BRAVYI-KITAEV"] := by
  unfold ParametersHamiltonian.bravyi_kitaev
  split <;> simp_all

/-- The two alias sets are disjoint, so a true Bravyi-Kitaev predicate
forces a false Jordan-Wigner predicate. -/
theorem ParametersHamiltonian.bk_imp_not_jw (p : ParametersHamiltonian)
    (h : p.bravyi_kitaev = true) : p.jordan_wigner = false := by
  rw [ParametersHamiltonian.bravyi_kitaev_iff] at h
  rw [Bool.eq_false_iff]
  intro hjw
  rw [ParametersHamiltonian.jordan_wigner_iff] at hjw
  simp only [List.mem_cons, List.not_mem_nil, or_false] at h hjw
  rcases hjw with h1 | h1 | h1 <;> rw [h1] at h <;> revert h <;> decide

/-- C3: each of the four Jordan-Wigner spellings and each of the four
Bravyi-Kitaev spellings is accepted by its predicate, and in general each
predicate is true exactly when the uppercased stored name is one of its
recognized aliases. -/
theorem C3_alias_predicates :
    ((⟨"JW"⟩ : ParametersHamiltonian).jordan_wigner = true ∧
     (⟨"jw"⟩ : ParametersHamiltonian).jordan_wigner = true ∧
     (⟨"J-W"⟩ : ParametersHamiltonian).jordan_wigner = true ∧
     (⟨"Jordan-Wigner"⟩ : ParametersHamiltonian).jordan_wigner = true) ∧
    ((⟨"BK"⟩ : ParametersHamiltonian).bravyi_kitaev = true ∧
     (⟨"bk"⟩ : ParametersHamiltonian).bravyi_kitaev = true ∧
     (⟨"B-K"⟩ : ParametersHamiltonian).bravyi_kitaev = true ∧
     (⟨"Bravyi-Kitaev"⟩ : ParametersHamiltonian).bravyi_kitaev = true) ∧
    (∀ p : ParametersHamiltonian,
      p.jordan_wigner = true ↔ p.transformation.upper ∈ ["JW", "J-W", "JORDAN-WIGNER"]) ∧
    (∀ p : ParametersHamiltonian,
      p.bravyi_kitaev = true ↔ p.transformation.upper ∈ ["BK", "B-K", "BRAVYI-KITAEV"]) :=
  ⟨⟨by decide, by decide, by decide, by decide⟩,
   ⟨by decide, by decide, by decide, by decide⟩,
   ParametersHamiltonian.jordan_wigner_iff,
   ParametersHamiltonian.bravyi_kitaev_iff⟩

/-- C9: no transformation name satisfies the Jordan-Wigner predicate and the
Bravyi-Kitaev predicate at once, so at most one built-in dispatch branch can
apply. -/
theorem C9_builtin_predicates_disjoint (p : ParametersHamiltonian) :
    (p.jordan_wigner && p.bravyi_kitaev) = false := by
  cases hb : p.bravyi_kitaev with
  | false => simp
  | true => simp [ParametersHamiltonian.bk_imp_not_jw p hb]

/-- C1: when verification succeeds and the subclass supplies a fermionic
Hamiltonian `H`, a configuration recognized as Jordan-Wigner makes `__call__`
return exactly `jordan_wigner (get_fermion_operator H)`, and one recognized
as Bravyi-Kitaev makes it return exactly
`bravyi_kitaev (get_fermion_operator H)`. -/
theorem C1_builtin_delegation {FH FermOp QubitOp : Type}
    (of : Openfermion FH FermOp QubitOp) (self : HamiltonianBase FH QubitOp)
    (H : FH) (b : Bool)
    (hv : self._verify = Except.ok b)
    (hH : self.get_fermionic_hamiltonian = Except.ok H) :
    (self.parameters.jordan_wigner = true →
      (HamiltonianBase.call of self).result =
        Except.ok (of.jordan_wigner (of.get_fermion_operator H))) ∧
    (self.parameters.bravyi_kitaev = true →
      (HamiltonianBase.call of self).result =
        Except.ok (of.bravyi_kitaev (of.get_fermion_operator H))) := by
  constructor
  · intro hjw
    unfold HamiltonianBase.call HamiltonianBase.verify
    rw [hv]
    simp [hjw, hH]
  · intro hbk
    unfold HamiltonianBase.call HamiltonianBase.verify
    rw [hv]
    simp [ParametersHamiltonian.bk_imp_not_jw self.parameters hbk, hbk, hH]

/-- C1 at a concrete input: transformation "JW", fermionic Hamiltonian 5. -/
theorem C1_builtin_delegation_witness :
    (mkNatInst "JW" (fun _ => none))._verify = Except.ok true ∧
    (mkNatInst "JW" (fun _ => none)).get_fermionic_hamiltonian = Except.ok 5 ∧
    (mkNatInst "JW" (fun _ => none)).parameters.jordan_wigner = true ∧
    (HamiltonianBase.call natOF (mkNatInst "JW" (fun _ => none))).result =
      Except.ok (natOF.jordan_wigner (natOF.get_fermion_operator 5)) :=
  ⟨rfl, rfl, by decide,
   (C1_builtin_delegation natOF (mkNatInst "JW" (fun _ => none)) 5 true rfl rfl).1 (by decide)⟩

/-- C2: when the transformation name is neither a Jordan-Wigner alias nor a
Bravyi-Kitaev alias nor the name of a callable attribute, `__call__` raises
`OpenVQEParameterError` carrying the parameter name "transformation", the
configuration class, the offending value, and the calling context. -/
theorem C2_unknown_transformation_error {FH FermOp QubitOp : Type}
    (of : Openfermion FH FermOp QubitOp) (self : HamiltonianBase FH QubitOp)
    (b : Bool)
    (hv : self._verify = Except.ok b)
    (hjw : self.parameters.transformation.upper ∉ ["JW", "J-W", "JORDAN-WIGNER"])
    (hbk : self.parameters.transformation.upper ∉ ["BK", "B-K", "BRAVYI-KITAEV"])
    (hattr : ∀ f, self.attrs self.parameters.transformation ≠ some (Attr.method f)) :
    (HamiltonianBase.call of self).result =
      Except.error (PyError.OpenVQEParameterError "transformation"
        self.parameters_class_name self.parameters.transformation
        (self.class_name ++ ".__call__()")) := by
  have h1 : self.parameters.jordan_wigner = false := by
    rw [Bool.eq_false_iff]
    intro h
    exact hjw ((ParametersHamiltonian.jordan_wigner_iff self.parameters).mp h)
  have h2 : self.parameters.bravyi_kitaev = false := by
    rw [Bool.eq_false_iff]
    intro h
    exact hbk ((ParametersHamiltonian.bravyi_kitaev_iff self.parameters).mp h)
  cases hA : self.attrs self.parameters.transformation with
  | none =>
    simp only [HamiltonianBase.call, HamiltonianBase.verify, hv, h1, h2,
      Bool.false_eq_true, if_false, hA]
  | some a =>
    cases a with
    | method f => exact absurd hA (hattr f)
    | nonCallable =>
      simp only [HamiltonianBase.call, HamiltonianBase.verify, hv, h1, h2,
        Bool.false_eq_true, if_false, hA]

/-- C2 at a concrete input: transformation "unknown", empty attribute
table. -/
theorem C2_unknown_transformation_error_witness :
    (mkNatInst "unknown" (fun _ => none))._verify = Except.ok true ∧
    "unknown".upper ∉ ["JW", "J-W", "JORDAN-WIGNER"] ∧
    "unknown".upper ∉ ["BK", "B-K", "BRAVYI-KITAEV"] ∧
    (HamiltonianBase.call natOF (mkNatInst "unknown" (fun _ => none))).result =
      Except.error (PyError.OpenVQEParameterError "transformation"
        "ParametersHamiltonian" "unknown" ("HamiltonianBase" ++ ".__call__()")) :=
  ⟨rfl, by decide, by decide,
   C2_unknown_transformation_error natOF (mkNatInst "unknown" (fun _ => none)) true
     rfl (by decide) (by decide) (fun f h => Option.noConfusion h)⟩

/-- C10: when the transformation name matches an attribute that exists but is
not callable, `__call__` raises the same `OpenVQEParameterError` instead of
invoking the attribute. -/
theorem C10_non_callable_attribute_error {FH FermOp QubitOp : Type}
    (of : Openfermion FH FermOp QubitOp) (self : HamiltonianBase FH QubitOp)
    (b : Bool)
    (hv : self._verify = Except.ok b)
    (hjw : self.parameters.jordan_wigner = false)
    (hbk : self.parameters.bravyi_kitaev = false)
    (hattr : self.attrs self.parameters.transformation = some Attr.nonCallable) :
    (HamiltonianBase.call of self).result =
      Except.error (PyError.OpenVQEParameterError "transformation"
        self.parameters_class_name self.parameters.transformation
        (self.class_name ++ ".__call__()")) := by
  unfold HamiltonianBase.call HamiltonianBase.verify
  rw [hv]
  simp only [hjw, hbk, Bool.false_eq_true, if_false]
  rw [hattr]

/-- C10 at a concrete input: transformation "data", whose attribute exists
but is not callable. -/
theorem C10_non_callable_attribute_error_witness :
    (mkNatInst "data" (fun s => if s = "data" then some Attr.nonCallable else none))._verify =
      Except.ok true ∧
    (mkNatInst "data" (fun s => if s = "data" then some Attr.nonCallable else none)).attrs
      "data" = some Attr.nonCallable ∧
    (HamiltonianBase.call natOF
      (mkNatInst "data" (fun s => if s = "data" then some Attr.nonCallable else none))).result =
      Except.error (PyError.OpenVQEParameterError "transformation"
        "ParametersHamiltonian" "data" ("HamiltonianBase" ++ ".__call__()")) :=
  ⟨rfl, rfl,
   C10_non_callable_attribute_error natOF
     (mkNatInst "data" (fun s => if s = "data" then some Attr.nonCallable else none)) true
     rfl (by decide) (by decide) rfl⟩

/-- An attribute table defining a method under the name "jw", which is also a
Jordan-Wigner alias. -/
def c5Attrs : String → Option (Attr Nat Nat) := fun s =>
  if s = "jw" then some (Attr.method (fun _ => 42)) else none

/-- C5 as stated is refuted: with transformation "jw" and a subclass method
named "jw" returning 42, `__call__` takes the built-in Jordan-Wigner branch
and returns 12, not the value 42 of the equally named method. -/
theorem C5_counterexample :
    (mkNatInst "jw" c5Attrs).attrs (mkNatInst "jw" c5Attrs).parameters.transformation =
      some (Attr.method (fun _ => 42)) ∧
    (mkNatInst "jw" c5Attrs).get_fermionic_hamiltonian = Except.ok 5 ∧
    (HamiltonianBase.call natOF (mkNatInst "jw" c5Attrs)).result =
      Except.ok (natOF.jordan_wigner (natOF.get_fermion_operator 5)) ∧
    (HamiltonianBase.call natOF (mkNatInst "jw" c5Attrs)).result ≠ Except.ok 42 :=
  ⟨rfl, rfl, by decide, by decide⟩

/-- C5 amended: when the transformation identifier is not a recognized
Jordan-Wigner or Bravyi-Kitaev alias and the subclass defines a callable
method of exactly that name, `__call__` returns exactly that method's value
on the fermionic Hamiltonian. -/
theorem C5_custom_dispatch {FH FermOp QubitOp : Type}
    (of : Openfermion FH FermOp QubitOp) (self : HamiltonianBase FH QubitOp)
    (b : Bool) (H : FH) (f : FH → QubitOp)
    (hv : self._verify = Except.ok b)
    (hjw : self.parameters.jordan_wigner = false)
    (hbk : self.parameters.bravyi_kitaev = false)
    (hattr : self.attrs self.parameters.transformation = some (Attr.method f))
    (hH : self.get_fermionic_hamiltonian = Except.ok H) :
    (HamiltonianBase.call of self).result = Except.ok (f H) := by
  simp only [HamiltonianBase.call, HamiltonianBase.verify, hv, hjw, hbk,
    Bool.false_eq_true, if_false, hattr, hH]

/-- C5 amended, at a concrete input: transformation "custom_transform" with a
method of that name multiplying the Hamiltonian by ten. -/
theorem C5_custom_dispatch_witness :
    (mkNatInst "custom_transform"
      (fun s => if s = "custom_transform" then some (Attr.method (fun h => h * 10)) else none)).parameters.jordan_wigner
      = false ∧
    (HamiltonianBase.call natOF (mkNatInst "custom_transform"
      (fun s => if s = "custom_transform" then some (Attr.method (fun h => h * 10)) else none))).result =
      Except.ok ((fun h => h * 10) 5) :=
  ⟨by decide,
   C5_custom_dispatch natOF
     (mkNatInst "custom_transform"
       (fun s => if s = "custom_transform" then some (Attr.method (fun h => h * 10)) else none))
     true 5 (fun h => h * 10) rfl (by decide) (by decide) rfl rfl⟩

/-- C4 as stated is refuted: on the unmodified base abstraction both abstract
operations do raise, but `n_qubits` raises an `OpenVQEException` while
`get_fermionic_hamiltonian` raises a `NotImplementedError`: two different
exception classes. -/
theorem C4_counterexample :
    (HamiltonianBase.base Nat Nat).n_qubits =
      Except.error (PyError.OpenVQEException ("HamiltonianBase" ++
        ": forgot to overwrite n_qubits() function or you are calling the BaseClass which you shall not do")) ∧
    (HamiltonianBase.base Nat Nat).get_fermionic_hamiltonian =
      Except.error (PyError.NotImplementedError
        "You try to call get_hamiltonian from the HamiltonianBase class. This function needs to be overwritten by subclasses") ∧
    (PyError.OpenVQEException ("HamiltonianBase" ++
        ": forgot to overwrite n_qubits() function or you are calling the BaseClass which you shall not do")).kind ≠
      (PyError.NotImplementedError
        "You try to call get_hamiltonian from the HamiltonianBase class. This function needs to be overwritten by subclasses").kind :=
  ⟨rfl, rfl, by decide⟩

/-- C4 amended: on the unmodified base abstraction both abstract operations
always raise an error signalling the missing override, yet of different
kinds: `n_qubits` an `OpenVQEException`, `get_fermionic_hamiltonian` a
`NotImplementedError`. -/
theorem C4_base_operations_raise (FH QubitOp : Type) :
    (HamiltonianBase.base FH QubitOp).n_qubits =
      Except.error (PyError.OpenVQEException ("HamiltonianBase" ++
        ": forgot to overwrite n_qubits() function or you are calling the BaseClass which you shall not do")) ∧
    (HamiltonianBase.base FH QubitOp).get_fermionic_hamiltonian =
      Except.error (PyError.NotImplementedError
        "You try to call get_hamiltonian from the HamiltonianBase class. This function needs to be overwritten by subclasses") :=
  ⟨rfl, rfl⟩

/-- C6 as stated is refuted at concrete inputs: with the unknown
transformation "unknown" the call evaluates the dispatch and raises without
ever obtaining the fermionic Hamiltonian, and with "JW" the dispatch check
precedes the accessor call, so the Hamiltonian is never obtained before
dispatch. -/
theorem C6_counterexample :
    (HamiltonianBase.call natOF (mkNatInst "unknown" (fun _ => none))).events =
      [Event.verifyCall, Event.dispatchCheck] ∧
    Event.getFermionicCall ∉
      (HamiltonianBase.call natOF (mkNatInst "unknown" (fun _ => none))).events ∧
    (HamiltonianBase.call natOF (mkNatInst "JW" (fun _ => none))).events =
      [Event.verifyCall, Event.dispatchCheck, Event.getFermionicCall, Event.jwTransform] :=
  ⟨by decide, by decide, by decide⟩

/-- C6 amended: every invocation begins with the verification call; the
dispatch on the transformation name follows it; the fermionic Hamiltonian is
obtained only after the dispatch, inside the selected branch, and not at all
when verification raises or the transformation is unknown.  The trace of an
invocation is always one of the six listed prefixes, in this order. -/
theorem C6_call_step_order {FH FermOp QubitOp : Type}
    (of : Openfermion FH FermOp QubitOp) (self : HamiltonianBase FH QubitOp) :
    (HamiltonianBase.call of self).events = [Event.verifyCall] ∨
    (HamiltonianBase.call of self).events = [Event.verifyCall, Event.dispatchCheck] ∨
    (HamiltonianBase.call of self).events =
      [Event.verifyCall, Event.dispatchCheck, Event.getFermionicCall] ∨
    (HamiltonianBase.call of self).events =
      [Event.verifyCall, Event.dispatchCheck, Event.getFermionicCall, Event.jwTransform] ∨
    (HamiltonianBase.call of self).events =
      [Event.verifyCall, Event.dispatchCheck, Event.getFermionicCall, Event.bkTransform] ∨
    (HamiltonianBase.call of self).events =
      [Event.verifyCall, Event.dispatchCheck, Event.getFermionicCall, Event.customCall] := by
  unfold HamiltonianBase.call HamiltonianBase.verify
  cases self._verify with
  | error e => simp
  | ok b =>
    by_cases h1 : self.parameters.jordan_wigner = true
    · cases hH : self.get_fermionic_hamiltonian <;> simp [h1, hH]
    · by_cases h2 : self.parameters.bravyi_kitaev = true
      · cases hH : self.get_fermionic_hamiltonian <;> simp [h1, h2, hH]
      · cases hA : self.attrs self.parameters.transformation with
        | none => simp [h1, h2, hA]
        | some a =>
          cases a with
          | method f =>
            cases hH : self.get_fermionic_hamiltonian <;> simp [h1, h2, hA, hH]
          | nonCallable => simp [h1, h2, hA]

/-- The body of `__call__` assigns no attribute: the post state equals the
input state in every branch. -/
theorem HamiltonianBase.call_post {FH FermOp QubitOp : Type}
    (of : Openfermion FH FermOp QubitOp) (self : HamiltonianBase FH QubitOp) :
    (HamiltonianBase.call of self).post = self := by
  unfold HamiltonianBase.call HamiltonianBase.verify
  cases self._verify with
  | error e => rfl
  | ok b =>
    by_cases h1 : self.parameters.jordan_wigner = true
    · cases hH : self.get_fermionic_hamiltonian <;> simp [h1, hH]
    · by_cases h2 : self.parameters.bravyi_kitaev = true
      · cases hH : self.get_fermionic_hamiltonian <;> simp [h1, h2, hH]
      · cases hA : self.attrs self.parameters.transformation with
        | none => simp [h1, h2, hA]
        | some a =>
          cases a with
          | method f =>
            cases hH : self.get_fermionic_hamiltonian <;> simp [h1, h2, hA, hH]
          | nonCallable => simp [h1, h2, hA]

/-- C7: `__call__` mutates no state and caches nothing: the post state equals
the input state, and a second invocation on that post state recomputes and
returns a value equal to the first. -/
theorem C7_no_mutation_recompute {FH FermOp QubitOp : Type}
    (of : Openfermion FH FermOp QubitOp) (self : HamiltonianBase FH QubitOp) :
    (HamiltonianBase.call of self).post = self ∧
    (HamiltonianBase.call of ((HamiltonianBase.call of self).post)).result =
      (HamiltonianBase.call of self).result :=
  ⟨HamiltonianBase.call_post of self, by rw [HamiltonianBase.call_post of self]⟩

/-- An attribute table defining exactly one method, under the exact name
"mytransform". -/
def c8Attrs : String → Option (Attr Nat Nat) := fun s =>
  if s = "mytransform" then some (Attr.method (fun h => h + 100)) else none

/-- C8: dispatch matches built-in transforms case-insensitively (the two
predicates are invariant under uppercase-equal renamings) while a custom
transformation is found only under its exact name: "mytransform" dispatches
to the method and returns its value, but the case variant "Mytransform"
raises the unknown-transformation parameter error. -/
theorem C8_dispatch_asymmetry (s t : String) (hst : s.upper = t.upper) :
    ((⟨s⟩ : ParametersHamiltonian).jordan_wigner =
       (⟨t⟩ : ParametersHamiltonian).jordan_wigner ∧
     (⟨s⟩ : ParametersHamiltonian).bravyi_kitaev =
       (⟨t⟩ : ParametersHamiltonian).bravyi_kitaev) ∧
    (HamiltonianBase.call natOF (mkNatInst "mytransform" c8Attrs)).result =
      Except.ok 105 ∧
    (HamiltonianBase.call natOF (mkNatInst "Mytransform" c8Attrs)).result =
      Except.error (PyError.OpenVQEParameterError "transformation"
        "ParametersHamiltonian" "Mytransform" ("HamiltonianBase" ++ ".__call__()")) := by
  refine ⟨⟨?_, ?_⟩, by decide, by decide⟩
  · unfold ParametersHamiltonian.jordan_wigner
    dsimp only
    rw [hst]
  · unfold ParametersHamiltonian.bravyi_kitaev
    dsimp only
    rw [hst]

/-- C8 at a concrete input: "jw" and "JW" are uppercase-equal and the
Jordan-Wigner predicate does not distinguish them. -/
theorem C8_dispatch_asymmetry_witness :
    ("jw" : String).upper = ("JW" : String).upper ∧
    (⟨"jw"⟩ : ParametersHamiltonian).jordan_wigner =
      (⟨"JW"⟩ : ParametersHamiltonian).jordan_wigner :=
  ⟨by decide, ((C8_dispatch_asymmetry "jw" "JW" (by decide)).1).1⟩
